import Mathlib

/-!
Shallow embedding of `src/app.py` (a small Flask chatbot service).

The program keeps one process-wide mutable reference `index` (a
`VectorStoreIndex` or Python `None`), built from the `docs` directory, and
exposes three HTTP routes.  We embed the index handle as `Option Nat`
(`none` = Python `None`, `some i` an opaque library object), the external
llama-index library calls as oracle parameters describing each call's
outcome, and every handler as a function from the current index reference
(plus oracles and request data) to the new index reference and an HTTP
response.  A Python exception that the handler does not catch is an
`Except.error`; exceptions the source catches are folded into the oracles'
outcome types.
-/

namespace ChatBot

/-- A JSON value, as far as the handlers inspect one. -/
inductive JValue where
  | jnull
  | jbool (b : Bool)
  | jnum (n : Int)
  | jstr (s : String)
  | jarr (elems : List JValue)
  | jobj (fields : List (String × JValue))
deriving Repr

/-- Python truthiness of a JSON value (`if not input_text:` in the source):
`None`, `False`, `0`, `""`, `[]`, `{}` are falsy, everything else truthy. -/
def JValue.truthy : JValue → Bool
  | .jnull => false
  | .jbool b => b
  | .jnum n => n != 0
  | .jstr s => s != ""
  | .jarr elems => !elems.isEmpty
  | .jobj fields => !fields.isEmpty

/-- Python `dict.get(key)`: the first binding of `key`, else `None`. -/
def dictGet (fields : List (String × JValue)) (key : String) : JValue :=
  match fields.find? (fun p => p.1 == key) with
  | some p => p.2
  | none => .jnull

/-- An HTTP response as built by `make_response(jsonify(...), status)`. -/
structure HttpResponse where
  status : Nat
  body : JValue
deriving Repr

/-- Exceptions that escape a handler to the web framework. -/
inductive PyError where
  | badRequest      -- `request.json` on an absent or unparseable body
  | attributeError  -- `.get` called on a parsed body that is not a dict
deriving Repr, DecidableEq

/-- Outcome of `SimpleDirectoryReader(directory_path).load_data()`:
the call raises, or returns a list of documents (each a file's text). -/
inductive LoadResult where
  | raises
  | docs (ds : List String)
deriving Repr, DecidableEq

/-- Outcome of `VectorStoreIndex.from_documents(documents)`:
the call raises, or yields a new index object. -/
inductive BuildResult where
  | raises
  | built (i : Nat)
deriving Repr, DecidableEq

/-- Outcome of `index.as_query_engine()` followed by `.query(input_text)`:
either call raises, or the query returns an answer (`str(response)`). -/
inductive QueryResult where
  | raises
  | answer (s : String)
deriving Repr, DecidableEq

/-- `load_data` yielded nothing usable: the reader raised (as it does on a
directory with no files) or returned an empty document list. -/
def LoadResult.emptyYield : LoadResult → Bool
  | .raises => true
  | .docs ds => ds.isEmpty

/-- `construct_index(directory_path)` (src/app.py lines 32-45).  Takes the
current global `index` and the outcomes of the two library calls; returns
the global `index` after the call and the function's return value.
On a load exception, an empty document list, or a build exception the
source returns `None` without assigning the global (the assignment on
line 40 only runs on success). -/
def construct_index (index : Option Nat) (load : LoadResult) (build : BuildResult) :
    Option Nat × Option Nat :=
  match load with
  | .raises => (index, none)
  | .docs documents =>
    if documents.isEmpty then
      (index, none)
    else
      match build with
      | .raises => (index, none)
      | .built i => (some i, some i)

/-- The fixed string returned when the index is absent (line 51). -/
def indexUnavailableMsg : String :=
  "Error: Chatbot index is not available. Please try again later."

/-- The fixed string returned when the query raises (line 58). -/
def queryFailedMsg : String := "Error: Could not generate a response."

/-- `generate_response(input_text)` (src/app.py lines 47-58).  `q` gives the
outcome of the query-engine call for a given index handle and input; the
source catches any exception from it.  Returns the global `index` after the
call together with the response string. -/
def generate_response (index : Option Nat) (q : Nat → JValue → QueryResult)
    (input_text : JValue) : Option Nat × String :=
  match index with
  | none => (index, indexUnavailableMsg)
  | some i =>
    match q i input_text with
    | .raises => (some i, queryFailedMsg)
    | .answer s => (some i, s)

/-- `request.json`: `none` models an absent or unparseable JSON body, on
which Flask's accessor raises `BadRequest`. -/
def requestJson (body : Option JValue) : Except PyError JValue :=
  match body with
  | none => .error .badRequest
  | some v => .ok v

/-- `request.json.get("input_text")` once the body parsed: `.get` exists
only on a dict, so any other JSON value raises `AttributeError`. -/
def jsonGetField (body : JValue) (key : String) : Except PyError JValue :=
  match body with
  | .jobj fields => .ok (dictGet fields key)
  | _ => .error .attributeError

/-- The `POST /api/chatbot` handler `chatbot()` (src/app.py lines 60-67). -/
def chatbot (index : Option Nat) (q : Nat → JValue → QueryResult)
    (body : Option JValue) : Except PyError (Option Nat × HttpResponse) :=
  match requestJson body with
  | .error e => .error e
  | .ok parsed =>
    match jsonGetField parsed "input_text" with
    | .error e => .error e
    | .ok input_text =>
      if !input_text.truthy then
        .ok (index, ⟨400, .jobj [("error", .jstr "input_text is required")]⟩)
      else
        let r := generate_response index q input_text
        .ok (r.1, ⟨200, .jobj [("response", .jstr r.2)]⟩)

/-- The `POST /api/chatbot/reload` handler `reload_index_route`
(src/app.py lines 69-75).  The branch tests Python truthiness of the
value `construct_index` returned: a `VectorStoreIndex` object is truthy,
`None` is falsy. -/
def reload_index_route (index : Option Nat) (load : LoadResult)
    (build : BuildResult) : Option Nat × HttpResponse :=
  let r := construct_index index load build
  if r.2.isSome then
    (r.1, ⟨200, .jobj [("message", .jstr "Index reloaded successfully")]⟩)
  else
    (r.1, ⟨500, .jobj [("error", .jstr "Failed to reload index")]⟩)

/-- The `GET /api/chatbot/hello` handler `hello()` (src/app.py lines 77-83). -/
def hello (index : Option Nat) : Option Nat × HttpResponse :=
  (index,
   ⟨200, .jobj [("success", .jbool true),
                ("message", .jstr "Hello from your DeepSeek-powered chatbot!"),
                ("data", .jobj [])]⟩)

/-- `config.get(key)` on the `dotenv_values(".env")` mapping.  A key that is
missing and a key bound to no value both give Python `None`, so both are
`none` here. -/
def configGet (config : List (String × Option String)) (key : String) :
    Option String :=
  match config.find? (fun p => p.1 == key) with
  | some p => p.2
  | none => none

/-- Python truthiness of an `Optional[str]`: `None` and `""` are falsy. -/
def pyStrTruthy : Option String → Bool
  | none => false
  | some s => s != ""

/-- The startup credential check (src/app.py lines 16-20):
`raise ValueError("DeepSeek API key is required")` when
`config.get("DEEPSEEK_API_KEY")` is falsy, otherwise startup proceeds. -/
def startupCheck (config : List (String × Option String)) :
    Except String Unit :=
  let DEEPSEEK_API_KEY := configGet config "DEEPSEEK_API_KEY"
  if !pyStrTruthy DEEPSEEK_API_KEY then
    .error "DeepSeek API key is required"
  else
    .ok ()

/-- Module initialization (src/app.py lines 29-30 and 86-90): the global
`index` starts as `None`; the `docs` directory is created if missing; then
`construct_index("docs")` runs.  `load` is the outcome of `load_data` on
the (possibly just-created) directory.  Returns whether `docs` exists
afterwards and the resulting global `index`. -/
def module_init (docsExists : Bool) (load : LoadResult) (build : BuildResult) :
    Bool × Option Nat :=
  let docsExistsAfter := if docsExists then docsExists else true
  let r := construct_index none load build
  (docsExistsAfter, r.1)

/-- Construction from the directory succeeds exactly when the load returns a
non-empty document list and the build call yields an index: this is the
spec-side reading of "directory yields zero documents or the construction
call raises" negated. -/
def constructionSucceeds : LoadResult → BuildResult → Bool
  | .docs ds, .built _ => !ds.isEmpty
  | _, _ => false

/-- C1 counterexample: with a working index (`some 7`) in place, a reload
from a directory yielding zero documents fails (`construct_index` returns
`None`), yet the process-wide index reference is NOT set to absent — it
still holds the old index, contradicting the claim. -/
theorem construct_index_fail_counterexample :
    (construct_index (some 7) (.docs []) (.built 0)).2 = none ∧
    (construct_index (some 7) (.docs []) (.built 0)).1 ≠ none := by
  refine ⟨rfl, ?_⟩
  intro h
  simp [construct_index] at h

/-- C1 (amended): if `construct_index` fails (the directory yields zero
documents or an underlying call raises, so it returns `None`), the
process-wide index reference is left unchanged, so a previously working
index remains in place and subsequent queries behave exactly as before
the failed rebuild. -/
theorem construct_index_fail_preserves_index
    (index : Option Nat) (load : LoadResult) (build : BuildResult)
    (hfail : (construct_index index load build).2 = none) :
    (construct_index index load build).1 = index ∧
    ∀ (q : Nat → JValue → QueryResult) (t : JValue),
      generate_response (construct_index index load build).1 q t =
        generate_response index q t := by
  have h1 : (construct_index index load build).1 = index := by
    cases load with
    | raises => rfl
    | docs ds =>
      cases hds : ds.isEmpty with
      | true => simp [construct_index, hds]
      | false => cases build with
        | raises => simp [construct_index, hds]
        | built i => simp [construct_index, hds] at hfail
  exact ⟨h1, fun q t => by rw [h1]⟩

/-- C1 witness: concrete failed rebuild (loader raises) over index `some 3`. -/
theorem construct_index_fail_preserves_index_witness :
    (construct_index (some 3) .raises (.built 0)).2 = none ∧
    (construct_index (some 3) .raises (.built 0)).1 = some 3 :=
  ⟨rfl, (construct_index_fail_preserves_index (some 3) .raises (.built 0) rfl).1⟩

/-- C2: a parsed JSON object body whose `input_text` field is missing or
falsy makes `chatbot` return HTTP 400 with exactly the body
`\x7b"error": "input_text is required"\x7d`, leaving the index unchanged. -/
theorem chatbot_falsy_input_text_400
    (index : Option Nat) (q : Nat → JValue → QueryResult)
    (fields : List (String × JValue))
    (hfalsy : (dictGet fields "input_text").truthy = false) :
    chatbot index q (some (.jobj fields)) =
      .ok (index, ⟨400, .jobj [("error", .jstr "input_text is required")]⟩) := by
  simp [chatbot, requestJson, jsonGetField, hfalsy]

/-- C2 witness: a body with no `input_text` field at all. -/
theorem chatbot_falsy_input_text_400_witness :
    (dictGet [] "input_text").truthy = false ∧
    chatbot none (fun _ _ => .raises) (some (.jobj [])) =
      .ok (none, ⟨400, .jobj [("error", .jstr "input_text is required")]⟩) :=
  ⟨rfl, chatbot_falsy_input_text_400 none (fun _ _ => .raises) [] rfl⟩

/-- C3: with non-empty `input_text` and no index loaded, `chatbot` returns
HTTP 200 (never a non-200 status) whose `response` field is the fixed
unavailability message. -/
theorem chatbot_no_index_returns_200_unavailable
    (q : Nat → JValue → QueryResult) (fields : List (String × JValue))
    (s : String) (hget : dictGet fields "input_text" = .jstr s)
    (hne : s ≠ "") :
    chatbot none q (some (.jobj fields)) =
      .ok (none, ⟨200, .jobj [("response", .jstr indexUnavailableMsg)]⟩) := by
  simp [chatbot, requestJson, jsonGetField, hget, JValue.truthy, hne,
        generate_response]

/-- C3 witness: concrete request with `input_text: "hi"` and absent index. -/
theorem chatbot_no_index_returns_200_unavailable_witness :
    dictGet [("input_text", .jstr "hi")] "input_text" = .jstr "hi" ∧
    ("hi" : String) ≠ "" ∧
    chatbot none (fun _ _ => .raises) (some (.jobj [("input_text", .jstr "hi")])) =
      .ok (none, ⟨200, .jobj [("response", .jstr indexUnavailableMsg)]⟩) :=
  ⟨rfl, by decide,
   chatbot_no_index_returns_200_unavailable (fun _ _ => .raises)
     [("input_text", .jstr "hi")] "hi" rfl (by decide)⟩

/-- C4: with non-empty `input_text`, an index loaded, and the query-engine
call raising, the exception is caught and `chatbot` returns HTTP 200 whose
`response` field is the fixed string "Error: Could not generate a
response."; no exception reaches the HTTP layer (the result is `.ok`). -/
theorem chatbot_query_raises_returns_200_error
    (i : Nat) (q : Nat → JValue → QueryResult)
    (fields : List (String × JValue)) (s : String)
    (hget : dictGet fields "input_text" = .jstr s) (hne : s ≠ "")
    (hq : q i (.jstr s) = .raises) :
    chatbot (some i) q (some (.jobj fields)) =
      .ok (some i, ⟨200, .jobj [("response", .jstr queryFailedMsg)]⟩) := by
  simp [chatbot, requestJson, jsonGetField, hget, JValue.truthy, hne,
        generate_response, hq]

/-- C4 witness: concrete raising query engine over index handle 0. -/
theorem chatbot_query_raises_returns_200_error_witness :
    dictGet [("input_text", .jstr "hi")] "input_text" = .jstr "hi" ∧
    ("hi" : String) ≠ "" ∧
    (fun (_ : Nat) (_ : JValue) => QueryResult.raises) 0 (.jstr "hi") = .raises ∧
    chatbot (some 0) (fun _ _ => .raises)
        (some (.jobj [("input_text", .jstr "hi")])) =
      .ok (some 0, ⟨200, .jobj [("response", .jstr queryFailedMsg)]⟩) :=
  ⟨rfl, by decide, rfl,
   chatbot_query_raises_returns_200_error 0 (fun _ _ => .raises)
     [("input_text", .jstr "hi")] "hi" rfl (by decide) rfl⟩

/-- C5: the reload route answers 200 with body
`\x7b"message": "Index reloaded successfully"\x7d` exactly when construction
from the directory succeeds (non-empty document list and the build call
yields an index), and 500 with body `\x7b"error": "Failed to reload index"\x7d`
exactly when it fails (zero documents or a raising call). -/
theorem reload_index_route_status_iff
    (index : Option Nat) (load : LoadResult) (build : BuildResult) :
    ((reload_index_route index load build).2 =
        ⟨200, .jobj [("message", .jstr "Index reloaded successfully")]⟩ ↔
      constructionSucceeds load build = true) ∧
    ((reload_index_route index load build).2 =
        ⟨500, .jobj [("error", .jstr "Failed to reload index")]⟩ ↔
      constructionSucceeds load build = false) := by
  cases load with
  | raises =>
    cases build <;>
      simp [reload_index_route, construct_index, constructionSucceeds]
  | docs ds =>
    cases hds : ds.isEmpty <;> cases build <;>
      simp [reload_index_route, construct_index, constructionSucceeds, hds]

/-- C6 counterexample: a configuration in which the credential key IS
present but bound to the empty string; the startup check still raises, so
"with the credential present, startup proceeds" fails as stated. -/
theorem startupCheck_present_empty_counterexample :
    (List.find? (fun p => p.1 == "DEEPSEEK_API_KEY")
        [("DEEPSEEK_API_KEY", some "")]).isSome = true ∧
    startupCheck [("DEEPSEEK_API_KEY", some "")] =
      .error "DeepSeek API key is required" :=
  ⟨rfl, rfl⟩

/-- C6 (amended): startup proceeds exactly when the configuration yields a
non-empty credential value for `DEEPSEEK_API_KEY`; when the key is absent,
bound to no value, or bound to the empty string, startup raises. -/
theorem startupCheck_ok_iff (config : List (String × Option String)) :
    startupCheck config = .ok () ↔
      ∃ s, configGet config "DEEPSEEK_API_KEY" = some s ∧ s ≠ "" := by
  cases hc : configGet config "DEEPSEEK_API_KEY" with
  | none => simp [startupCheck, pyStrTruthy, hc]
  | some s =>
    by_cases hs : s = "" <;>
      simp [startupCheck, pyStrTruthy, hc, hs]

/-- C7: the hello route returns, for every index state, HTTP 200 with the
fixed payload whose `success` field is `true` and whose `data` field is the
empty object, and leaves the index unchanged. -/
theorem hello_fixed_response (index : Option Nat) :
    hello index =
      (index, ⟨200, .jobj [("success", .jbool true),
                           ("message", .jstr "Hello from your DeepSeek-powered chatbot!"),
                           ("data", .jobj [])]⟩) :=
  rfl

/-- C8: at module initialization, a missing `docs` directory is created (it
exists afterwards), and whenever the directory yields no documents — it was
empty, just created, or the reader raises on it — the index reference is
`none` after the startup construction attempt, which returns normally. -/
theorem module_init_empty_dir
    (docsExists : Bool) (load : LoadResult) (build : BuildResult)
    (hempty : load.emptyYield = true) :
    module_init docsExists load build = (true, none) := by
  cases load with
  | raises => cases docsExists <;> rfl
  | docs ds =>
    have hds : ds.isEmpty = true := hempty
    cases docsExists <;> simp [module_init, construct_index, hds]

/-- C8 witness: directory initially missing, reader raising on the freshly
created empty directory. -/
theorem module_init_empty_dir_witness :
    LoadResult.emptyYield .raises = true ∧
    module_init false .raises (.built 0) = (true, none) :=
  ⟨rfl, module_init_empty_dir false .raises (.built 0) rfl⟩

/-- C9: when the request body is absent or unparseable, accessing
`request.json` raises before the `input_text` validation runs: the handler
propagates `BadRequest` and never produces the documented 400 JSON body. -/
theorem chatbot_no_json_raises
    (index : Option Nat) (q : Nat → JValue → QueryResult) :
    chatbot index q none = .error .badRequest :=
  rfl

/-- C10: `generate_response` never modifies the process-wide index
reference, for every index state (absent, present, raising query engine)
and input; the hello route does not modify it either, and the reload
route's resulting reference is exactly the one `construct_index` leaves —
only `construct_index` writes that reference. -/
theorem generate_response_preserves_index
    (index : Option Nat) (q : Nat → JValue → QueryResult) (input_text : JValue)
    (load : LoadResult) (build : BuildResult) :
    (generate_response index q input_text).1 = index ∧
    (hello index).1 = index ∧
    (reload_index_route index load build).1 =
      (construct_index index load build).1 := by
  refine ⟨?_, rfl, ?_⟩
  · cases index with
    | none => rfl
    | some i => cases hq : q i input_text <;> simp [generate_response, hq]
  · cases h : (construct_index index load build).2.isSome <;>
      simp [reload_index_route, h]

end ChatBot
